import Mathlib

/-!
Verification of the realtime layer of the eco11 backend
(src/backend/server.ts): the Socket.IO authentication middleware, the
connection handler with its per-event listeners, and the stateless
helper computations they call (carbon-footprint calculation and
recommendation generation).

Modelling conventions:
* JavaScript numbers are modelled as rationals; every factor in the
  static emission table is exactly representable and the arithmetic the
  properties mention is exact in both models.
* Wall-clock timestamps and random uuids are nondeterministic inputs
  from the environment and are omitted from payload records; all other
  payload fields are kept.
* Socket.IO room state is modelled the way the in-memory adapter keeps
  it: a map from socket id to its set of rooms and a map from room name
  to its set of socket ids, both updated together by a join.
* The JavaScript expression (x || 1) treats 0 as falsy, so the factor
  defaulting keeps that case explicit.
-/

namespace Eco

/-- Association-list lookup, first binding wins (a JavaScript Map/object lookup). -/
def lookupA {α β : Type} [DecidableEq α] (k : α) : List (α × β) → Option β
  | [] => none
  | (k', v) :: rest => if k = k' then some v else lookupA k rest

/-- Add an element to a set kept as a duplicate-free list (JavaScript Set.add). -/
def insertMem {α : Type} [DecidableEq α] (x : α) (xs : List α) : List α :=
  if x ∈ xs then xs else xs ++ [x]

/-- Update the binding of k by f, treating a missing binding as d
(Map get-or-default followed by set). -/
def updateA {α β : Type} [DecidableEq α] (k : α) (d : β) (f : β → β) :
    List (α × β) → List (α × β)
  | [] => [(k, f d)]
  | (k', v) :: rest =>
    if k = k' then (k, f v) :: rest else (k', v) :: updateA k d f rest

/-- Static emission-factor table of calculateCarbonFootprint
(server.ts lines 273-291); the JavaScript access is
emissionFactors[activity_type]?.[unit], which is none when either key
is absent. -/
def emissionFactors (activity_type unit : String) : Option ℚ :=
  if activity_type = "transportation" then
    if unit = "car_km" then some (2/10)
    else if unit = "bus_km" then some (5/100)
    else if unit = "train_km" then some (3/100)
    else if unit = "flight_km" then some (15/100)
    else none
  else if activity_type = "energy" then
    if unit = "electricity_kwh" then some (4/10)
    else if unit = "gas_m3" then some 2
    else if unit = "heating_oil_l" then some (25/10)
    else none
  else if activity_type = "diet" then
    if unit = "beef_kg" then some 60
    else if unit = "chicken_kg" then some 6
    else if unit = "vegetables_kg" then some 2
    else if unit = "dairy_l" then some (32/10)
    else none
  else none

/-- Result record of calculateCarbonFootprint (server.ts lines 296-304);
the calculated_at timestamp is environment input and omitted. -/
structure FootprintResult where
  activity_type : String
  quantity : ℚ
  unit : String
  co2_equivalent_kg : ℚ
  location_factor : ℚ
deriving DecidableEq, Repr

/-- calculateCarbonFootprint (server.ts lines 271-305): factor is the
table lookup with JavaScript (lookup || 1) defaulting, impact is
quantity * factor. -/
def calculateCarbonFootprint (activity_type : String) (quantity : ℚ)
    (unit location : String) : FootprintResult :=
  let factor : ℚ :=
    match emissionFactors activity_type unit with
    | some f => if f = 0 then 1 else f
    | none => 1
  { activity_type := activity_type
    quantity := quantity
    unit := unit
    co2_equivalent_kg := quantity * factor
    location_factor := if location = "US" then 1 else 8/10 }

/-- One entry of the static recommendation list (server.ts lines
201-232); the random uuid id field is omitted. -/
structure Recommendation where
  title : String
  content : String
  impact : ℚ
  difficulty : String
  category : String
  estimated_co2_savings : ℚ
  timeframe : String
deriving DecidableEq, Repr

/-- The static mockRecommendations list of
generatePersonalizedRecommendations (server.ts lines 201-232). -/
def mockRecommendations : List Recommendation :=
  [ { title := "Switch to LED bulbs"
      content := "Replace incandescent bulbs with LED alternatives to save energy"
      impact := 155/10
      difficulty := "beginner"
      category := "energy"
      estimated_co2_savings := 253/10
      timeframe := "1 week" },
    { title := "Use public transportation 3x per week"
      content := "Reduce car dependency by taking buses or trains for regular commutes"
      impact := 452/10
      difficulty := "intermediate"
      category := "transportation"
      estimated_co2_savings := 1208/10
      timeframe := "1 month" },
    { title := "Start composting organic waste"
      content := "Set up a home composting system to reduce landfill waste"
      impact := 221/10
      difficulty := "advanced"
      category := "waste"
      estimated_co2_savings := 654/10
      timeframe := "2 weeks" } ]

/-- Result record of generatePersonalizedRecommendations (server.ts
lines 234-241); generated_at and next_refresh are clock values and
omitted. -/
structure RecommendationResult where
  user_id : String
  recommendations : List Recommendation
deriving DecidableEq, Repr

/-- generatePersonalizedRecommendations (server.ts lines 199-242): a
truthy category (any non-empty string) filters the static list by
category equality; a falsy category (empty or absent) returns the whole
list. -/
def generatePersonalizedRecommendations (user_id category : String) :
    RecommendationResult :=
  { user_id := user_id
    recommendations :=
      if category ≠ "" then
        mockRecommendations.filter (fun r => r.category == category)
      else mockRecommendations }

/-- Resolved user identity: the users-table row bound to the socket by
the auth middleware (socket.user). -/
structure UserRec where
  id : String
  username : String
deriving DecidableEq, Repr

/-- A connected socket with its bound identity. -/
structure Conn where
  cid : Nat
  user : UserRec
deriving DecidableEq, Repr

/-- Server-side realtime state: the connected sockets plus the Socket.IO
in-memory adapter maps (socket id to its rooms, room name to its socket
ids). -/
structure ServerState where
  conns : List Conn
  sids : List (Nat × List String)
  rooms : List (String × List Nat)
deriving DecidableEq, Repr

/-- Outbound realtime events emitted by the handlers under scrutiny.
Timestamp fields (timestamp, updated_at) are clock values and omitted;
every other payload field is kept. -/
inductive ServerEvent : Type where
  | activityLogged (user_id category : String) (impact : ℚ) (description : String)
  | recommendationUpdated (res : RecommendationResult)
  | goalUpdated (user_id category : String) (target : ℚ) (timeframe : String)
  | newWebinarMessage (webinar_id message_text sender_id sender_username : String)
  | webinarJoined (webinar_id : String)
  | webinarLeft (webinar_id : String)
  | errorEvent (message : String)
deriving DecidableEq, Repr

/-- Member set of a room (the rooms map of the adapter; absent room = empty). -/
def membersOf (st : ServerState) (room : String) : List Nat :=
  (lookupA room st.rooms).getD []

/-- Room set of a socket (the sids map of the adapter; absent socket = empty). -/
def roomsOf (st : ServerState) (cid : Nat) : List String :=
  (lookupA cid st.sids).getD []

/-- socket.join(room): add the room to the room set of the socket and
the socket id to the member set of the room, creating map entries as needed --
exactly what the in-memory adapter does with its Map-of-Set state. -/
def joinRoom (st : ServerState) (cid : Nat) (room : String) : ServerState :=
  { st with
    sids := updateA cid [] (insertMem room) st.sids
    rooms := updateA room [] (insertMem cid) st.rooms }

/-- io.emit(ev): one delivery of ev to every connected socket. -/
def ioEmit (st : ServerState) (ev : ServerEvent) : List (Nat × ServerEvent) :=
  st.conns.map (fun c => (c.cid, ev))

/-- io.to(room).emit(ev): one delivery of ev to every member of room. -/
def ioToRoom (st : ServerState) (room : String) (ev : ServerEvent) :
    List (Nat × ServerEvent) :=
  (membersOf st room).map (fun cid => (cid, ev))

/-- socket.emit(ev): one delivery of ev to the originating socket only. -/
def socketEmit (sock : Conn) (ev : ServerEvent) : List (Nat × ServerEvent) :=
  [(sock.cid, ev)]

/-- The log_activity listener (server.ts lines 1586-1623): computes the
impact with calculateCarbonFootprint (location hard-coded to US),
broadcasts activity.logged to all connections with io.emit, then sends
recommendation.updated to the originating socket with socket.emit. The
listener body contains no validation of category, quantity or unit, and
none of the functions it calls can throw on a well-formed payload
object, so the catch branch (socket.emit of an error event) is
unreachable in this model. State is unchanged. -/
def logActivity (st : ServerState) (sock : Conn) (category : String)
    (quantity : ℚ) (unit description : String) : List (Nat × ServerEvent) :=
  let impact := calculateCarbonFootprint category quantity unit "US"
  let recs := generatePersonalizedRecommendations sock.user.id category
  ioEmit st (.activityLogged sock.user.id category impact.co2_equivalent_kg description)
    ++ socketEmit sock (.recommendationUpdated recs)

/-- The update_goal listener (server.ts lines 1629-1648): emits
goal.updated to the room user_<id> of the originating user. -/
def updateGoal (st : ServerState) (sock : Conn) (category : String)
    (target : ℚ) (timeframe : String) : List (Nat × ServerEvent) :=
  ioToRoom st ("user_" ++ sock.user.id)
    (.goalUpdated sock.user.id category target timeframe)

/-- The webinar_message listener (server.ts lines 1685-1704): emits
new_webinar_message to the room webinar_<id>, with sender fields taken
from the bound identity of the originating socket. -/
def webinarMessage (st : ServerState) (sock : Conn)
    (webinar_id message_text : String) : List (Nat × ServerEvent) :=
  ioToRoom st ("webinar_" ++ webinar_id)
    (.newWebinarMessage webinar_id message_text sock.user.id sock.user.username)

/-- The join_webinar listener (server.ts lines 1710-1718): joins the
socket to webinar_<id> and confirms to the originating socket. -/
def joinWebinar (st : ServerState) (sock : Conn) (webinar_id : String) :
    ServerState × List (Nat × ServerEvent) :=
  (joinRoom st sock.cid ("webinar_" ++ webinar_id),
   socketEmit sock (.webinarJoined webinar_id))

/-- The connection handler prologue (server.ts lines 1576-1580): the
socket arrives with its identity already bound by the auth middleware,
is recorded as connected, and is immediately joined to its private room
user_<id> -- before any of its event listeners are registered. -/
def onConnection (st : ServerState) (sock : Conn) : ServerState :=
  joinRoom { st with conns := st.conns ++ [sock] } sock.cid
    ("user_" ++ sock.user.id)

/-- Outcome of the Socket.IO authentication middleware (server.ts lines
174-193). jwt.verify and the users-table query are the external
collaborators and are passed as oracles: verify returns the user id
claim of a valid token and none when the token is malformed or expired
(jwt.verify throwing is caught by the try block and also reaches the
error path); lookupUser returns the users row for an id, none when no
row exists. Every failure calls next(new Error("Authentication error")),
which refuses the connection, and leaves socket.user unset. -/
def authMiddleware (verify : String → Option String)
    (lookupUser : String → Option UserRec) (token : Option String) :
    Except String UserRec :=
  match token with
  | none => .error "Authentication error"
  | some t =>
    match verify t with
    | none => .error "Authentication error"
    | some uid =>
      match lookupUser uid with
      | none => .error "Authentication error"
      | some u => .ok u

/-- Inbound client events of the modelled listeners. -/
inductive InboundEvent : Type where
  | logActivityEv (category : String) (quantity : ℚ) (unit description : String)
  | updateGoalEv (category : String) (target : ℚ) (timeframe : String)
  | webinarMessageEv (webinar_id message_text : String)
  | joinWebinarEv (webinar_id : String)
deriving DecidableEq, Repr

/-- A step of the server event loop: either a new authenticated
connection or an inbound event from a socket. -/
inductive Msg : Type where
  | connect (sock : Conn)
  | inbound (cid : Nat) (ev : InboundEvent)
deriving DecidableEq, Repr

/-- Dispatch of one inbound event to its listener. -/
def dispatch (st : ServerState) (sock : Conn) :
    InboundEvent → ServerState × List (Nat × ServerEvent)
  | .logActivityEv c q u d => (st, logActivity st sock c q u d)
  | .updateGoalEv c t tf => (st, updateGoal st sock c t tf)
  | .webinarMessageEv w m => (st, webinarMessage st sock w m)
  | .joinWebinarEv w => joinWebinar st sock w

/-- One step of the event loop. A connect runs the connection handler,
which joins the private room and only then registers the per-event
listeners; hence an inbound event from a socket that has not connected
finds no listener and is ignored. -/
def step (st : ServerState) : Msg → ServerState × List (Nat × ServerEvent)
  | .connect sock => (onConnection st sock, [])
  | .inbound cid ev =>
    match st.conns.find? (fun c => c.cid == cid) with
    | none => (st, [])
    | some sock => dispatch st sock ev

/-- The state with no connections and no rooms. -/
def emptyState : ServerState := ⟨[], [], []⟩

/-- Bool test for a recommendation.updated delivery. -/
def isRecommendationEvent : ServerEvent → Bool
  | .recommendationUpdated _ => true
  | _ => false

/-- Bool test for an error delivery. -/
def isErrorEvent : ServerEvent → Bool
  | .errorEvent _ => true
  | _ => false

theorem lookupA_updateA_self {α β : Type} [DecidableEq α] (k : α) (d : β)
    (f : β → β) (m : List (α × β)) :
    lookupA k (updateA k d f m) = some (f ((lookupA k m).getD d)) := by
  induction m with
  | nil => simp [lookupA, updateA]
  | cons p rest ih =>
    obtain ⟨k', v⟩ := p
    by_cases h : k = k' <;> simp [lookupA, updateA, h, ih]

theorem insertMem_self_mem {α : Type} [DecidableEq α] (x : α) (xs : List α) :
    x ∈ insertMem x xs := by
  unfold insertMem
  by_cases h : x ∈ xs <;> simp [h]

theorem mem_insertMem {α : Type} [DecidableEq α] (x y : α) (xs : List α) :
    y ∈ insertMem x xs ↔ y = x ∨ y ∈ xs := by
  unfold insertMem
  by_cases h : x ∈ xs <;> simp [h, or_comm]
  rintro rfl
  exact h

theorem insertMem_idem {α : Type} [DecidableEq α] (x : α) (xs : List α) :
    insertMem x (insertMem x xs) = insertMem x xs := by
  unfold insertMem
  by_cases h : x ∈ xs <;> simp [h]

theorem updateA_idem {α β : Type} [DecidableEq α] (k : α) (d : β) (f : β → β)
    (hf : ∀ v, f (f v) = f v) (m : List (α × β)) :
    updateA k d f (updateA k d f m) = updateA k d f m := by
  induction m with
  | nil => simp [updateA, hf]
  | cons p rest ih =>
    obtain ⟨k', v⟩ := p
    by_cases h : k = k' <;> simp [updateA, h, hf, ih]

theorem membersOf_joinRoom_self (st : ServerState) (cid : Nat) (room : String) :
    membersOf (joinRoom st cid room) room = insertMem cid (membersOf st room) := by
  simp [membersOf, joinRoom, lookupA_updateA_self]

theorem joinRoom_conns (st : ServerState) (cid : Nat) (room : String) :
    (joinRoom st cid room).conns = st.conns := rfl

theorem joinRoom_idem (st : ServerState) (cid : Nat) (room : String) :
    joinRoom (joinRoom st cid room) cid room = joinRoom st cid room := by
  unfold joinRoom
  simp [updateA_idem _ _ _ (fun v => insertMem_idem room v),
        updateA_idem _ _ _ (fun v => insertMem_idem cid v)]

theorem emissionFactors_ne_zero (a u : String) (f : ℚ)
    (h : emissionFactors a u = some f) : f ≠ 0 := by
  unfold emissionFactors at h
  split_ifs at h <;> try simp_all
  all_goals (subst f ; norm_num)

theorem co2_eq_quantity_mul_factor (a : String) (q : ℚ) (u location : String)
    (f : ℚ) (h : emissionFactors a u = some f) :
    (calculateCarbonFootprint a q u location).co2_equivalent_kg = q * f := by
  unfold calculateCarbonFootprint
  simp [h, emissionFactors_ne_zero a u f h]

theorem co2_default_one (a : String) (q : ℚ) (u location : String)
    (h : emissionFactors a u = none) :
    (calculateCarbonFootprint a q u location).co2_equivalent_kg = q * 1 := by
  unfold calculateCarbonFootprint
  simp [h]

theorem logActivity_no_error (st : ServerState) (sock : Conn)
    (category : String) (quantity : ℚ) (unit description : String)
    (cid : Nat) (m : String) :
    (cid, ServerEvent.errorEvent m) ∉
      logActivity st sock category quantity unit description := by
  unfold logActivity ioEmit socketEmit
  simp

/-- Concrete fixtures used by witnesses and counterexamples. -/
def userAlice : UserRec := ⟨"u1", "alice"⟩

def sockA : Conn := ⟨0, userAlice⟩

def sockB : Conn := ⟨1, userAlice⟩

def st1 : ServerState := onConnection emptyState sockA

def st2 : ServerState := onConnection st1 sockB

/-- C1: for every activity report whose (category, unit) pair is in the
static emission table, ingest computes the impact as quantity times the
table factor; in particular, category transportation, quantity 10, unit
car_km with table factor 0.2 produces an activity.logged event whose
impact equals 2.0. -/
theorem c1_impact_is_quantity_times_factor :
    (∀ category quantity unit location f,
      emissionFactors category unit = some f →
      (calculateCarbonFootprint category quantity unit location).co2_equivalent_kg
        = quantity * f)
    ∧ (calculateCarbonFootprint "transportation" 10 "car_km"
        "US").co2_equivalent_kg = 2
    ∧ (0, ServerEvent.activityLogged "u1" "transportation" 2 "drive")
      ∈ logActivity st1 sockA "transportation" 10 "car_km" "drive" := by
  refine ⟨fun c q u l f h => co2_eq_quantity_mul_factor c q u l f h, ?_, ?_⟩
  · norm_num [calculateCarbonFootprint, emissionFactors]
  · refine List.mem_append.mpr (Or.inl ?_)
    norm_num [ioEmit, st1, onConnection, joinRoom, emptyState, sockA,
      userAlice, calculateCarbonFootprint, emissionFactors]

/-- Witness for C1 at the concrete input named by the claim. -/
theorem c1_witness :
    (calculateCarbonFootprint "transportation" 10 "car_km"
      "US").co2_equivalent_kg = 10 * (2/10 : ℚ) :=
  c1_impact_is_quantity_times_factor.1 "transportation" 10 "car_km" "US"
    (2/10) (by norm_num [emissionFactors])

/-- C2: for every activity report whose (category, unit) pair is absent
from the static emission table, ingest succeeds -- the log_activity
listener delivers no error event -- and the produced impact equals
quantity * 1 (the silent default factor). -/
theorem c2_unknown_pair_defaults_to_factor_one (st : ServerState)
    (sock : Conn) (category : String) (quantity : ℚ)
    (unit location description : String)
    (h : emissionFactors category unit = none) :
    (calculateCarbonFootprint category quantity unit location).co2_equivalent_kg
      = quantity * 1
    ∧ (∀ c ∈ st.conns,
        (c.cid, ServerEvent.activityLogged sock.user.id category
            (quantity * 1) description)
          ∈ logActivity st sock category quantity unit description)
    ∧ ∀ cid m, (cid, ServerEvent.errorEvent m) ∉
        logActivity st sock category quantity unit description := by
  refine ⟨co2_default_one category quantity unit location h, ?_,
    fun cid m => logActivity_no_error st sock category quantity unit description cid m⟩
  intro c hc
  dsimp only [logActivity, ioEmit, socketEmit]
  rw [co2_default_one category quantity unit "US" h]
  exact List.mem_append.mpr (Or.inl (List.mem_map.mpr ⟨c, hc, rfl⟩))

/-- Witness for C2 at a concrete unknown pair. -/
theorem c2_witness :
    (calculateCarbonFootprint "foo" 7 "bar" "US").co2_equivalent_kg = 7 * 1
    ∧ (0, ServerEvent.activityLogged "u1" "foo" (7 * 1) "walked")
      ∈ logActivity st1 sockA "foo" 7 "bar" "walked"
    ∧ ∀ cid m, (cid, ServerEvent.errorEvent m) ∉
        logActivity st1 sockA "foo" 7 "bar" "walked" :=
  ⟨(c2_unknown_pair_defaults_to_factor_one st1 sockA "foo" 7 "bar" "US"
      "walked" rfl).1,
   (c2_unknown_pair_defaults_to_factor_one st1 sockA "foo" 7 "bar" "US"
      "walked" rfl).2.1 sockA
      (by simp [st1, onConnection, joinRoom, emptyState]),
   (c2_unknown_pair_defaults_to_factor_one st1 sockA "foo" 7 "bar" "US"
      "walked" rfl).2.2⟩

/-- C3 counterexample: with one connected socket, a log_activity report
with quantity -5 (where the claim expects a ValidationError and no
publish) is processed normally: activity.logged is broadcast with
impact -5 * 0.2 = -1 and no error event is delivered to anyone. -/
theorem c3_counterexample :
    logActivity st1 sockA "transportation" (-5) "car_km" "drove" =
      [(0, ServerEvent.activityLogged "u1" "transportation" (-1) "drove"),
       (0, ServerEvent.recommendationUpdated
          (generatePersonalizedRecommendations "u1" "transportation"))] := by
  norm_num [logActivity, ioEmit, socketEmit, st1, onConnection, joinRoom,
    emptyState, sockA, userAlice, calculateCarbonFootprint, emissionFactors]

/-- C3 amended: the log_activity listener performs no validation at
all -- every report, including one with a non-positive quantity or an
unrecognized category, is processed: activity.logged with impact
quantity * factor (default factor 1) is broadcast to every connection,
and no error event is delivered. -/
theorem c3_no_validation_report_processed (st : ServerState) (sock : Conn)
    (category : String) (quantity : ℚ) (unit description : String)
    (c : Conn) (hc : c ∈ st.conns) :
    (c.cid, ServerEvent.activityLogged sock.user.id category
        (calculateCarbonFootprint category quantity unit
          "US").co2_equivalent_kg description)
      ∈ logActivity st sock category quantity unit description
    ∧ ∀ cid m, (cid, ServerEvent.errorEvent m) ∉
        logActivity st sock category quantity unit description := by
  constructor
  · unfold logActivity ioEmit socketEmit
    exact List.mem_append.mpr (Or.inl (List.mem_map.mpr ⟨c, hc, rfl⟩))
  · exact fun cid m =>
      logActivity_no_error st sock category quantity unit description cid m

/-- Witness for the amended C3 at the concrete failing input of the
original claim. -/
theorem c3_witness :
    (0, ServerEvent.activityLogged "u1" "transportation"
        (calculateCarbonFootprint "transportation" (-5) "car_km"
          "US").co2_equivalent_kg "drove")
      ∈ logActivity st1 sockA "transportation" (-5) "car_km" "drove"
    ∧ ∀ cid m, (cid, ServerEvent.errorEvent m) ∉
        logActivity st1 sockA "transportation" (-5) "car_km" "drove" :=
  c3_no_validation_report_processed st1 sockA "transportation" (-5) "car_km"
    "drove" sockA (by simp [st1, onConnection, joinRoom, emptyState])

theorem filter_isRec_map (l : List Conn) (ev : ServerEvent)
    (hev : isRecommendationEvent ev = false) :
    (l.map (fun c => (c.cid, ev))).filter
      (fun x => isRecommendationEvent x.2) = [] := by
  induction l with
  | nil => rfl
  | cons c rest ih => simp [List.filter, hev, ih]

/-- C4 counterexample: user u1 has two connections, 0 and 1, both
members of room user_u1; connection 0 logs an activity. The only
recommendation.updated delivery goes to connection 0, so connection 1
-- another connection of the same user -- never receives the refresh,
refuting delivery with scope User(identity.id). -/
theorem c4_counterexample :
    (1 : Nat) ∈ membersOf st2 ("user_" ++ "u1")
    ∧ (logActivity st2 sockA "energy" 2 "electricity_kwh" "d").filter
        (fun x => isRecommendationEvent x.2) =
      [(0, ServerEvent.recommendationUpdated
          (generatePersonalizedRecommendations "u1" "energy"))] := by
  constructor
  · norm_num [membersOf, st2, st1, onConnection, joinRoom, emptyState, sockA,
      sockB, userAlice, updateA, lookupA, insertMem]
  · norm_num [logActivity, ioEmit, socketEmit, st2, st1, onConnection,
      joinRoom, emptyState, sockA, sockB, userAlice, List.filter,
      isRecommendationEvent]

/-- C4 amended: every successful ingest broadcasts the enriched
activity.logged event {user id, category, impact, description} to all
connections (scope Global), and then the recommendation refresh is
delivered only to the originating connection (socket.emit), not to the
other connections of the user. -/
theorem c4_global_feed_and_rec_to_origin_only (st : ServerState)
    (sock : Conn) (category : String) (quantity : ℚ)
    (unit description : String) :
    (∀ c ∈ st.conns,
      (c.cid, ServerEvent.activityLogged sock.user.id category
          (calculateCarbonFootprint category quantity unit
            "US").co2_equivalent_kg description)
        ∈ logActivity st sock category quantity unit description)
    ∧ (logActivity st sock category quantity unit description).filter
        (fun x => isRecommendationEvent x.2)
      = [(sock.cid, ServerEvent.recommendationUpdated
          (generatePersonalizedRecommendations sock.user.id category))] := by
  constructor
  · intro c hc
    unfold logActivity ioEmit socketEmit
    exact List.mem_append.mpr (Or.inl (List.mem_map.mpr ⟨c, hc, rfl⟩))
  · unfold logActivity
    rw [List.filter_append, ioEmit,
      filter_isRec_map st.conns
        (ServerEvent.activityLogged sock.user.id category
          (calculateCarbonFootprint category quantity unit
            "US").co2_equivalent_kg description) rfl]
    simp [socketEmit, isRecommendationEvent]

/-- Witness for the amended C4 at the two-connection state. -/
theorem c4_witness :
    (∀ c ∈ st2.conns,
      (c.cid, ServerEvent.activityLogged "u1" "energy"
          (calculateCarbonFootprint "energy" 2 "electricity_kwh"
            "US").co2_equivalent_kg "d")
        ∈ logActivity st2 sockA "energy" 2 "electricity_kwh" "d")
    ∧ (logActivity st2 sockA "energy" 2 "electricity_kwh" "d").filter
        (fun x => isRecommendationEvent x.2)
      = [(0, ServerEvent.recommendationUpdated
          (generatePersonalizedRecommendations "u1" "energy"))] :=
  c4_global_feed_and_rec_to_origin_only st2 sockA "energy" 2
    "electricity_kwh" "d"

/-- C5: for connections A and B that have joined webinar_42 (via the
join_webinar listener) and any other connection id that has not: after
A sends webinar_message with id 42 and text hi, B receives
new_webinar_message carrying the identity of A as sender and text hi, and
the outside connection receives nothing. -/
theorem c5_webinar_message_reaches_members_only (st : ServerState)
    (A B : Conn) (ccid : Nat)
    (hC : ccid ∉ membersOf st ("webinar_" ++ "42"))
    (hca : ccid ≠ A.cid) (hcb : ccid ≠ B.cid) :
    (B.cid, ServerEvent.newWebinarMessage "42" "hi" A.user.id A.user.username)
      ∈ webinarMessage ((joinWebinar ((joinWebinar st A "42").1) B "42").1)
          A "42" "hi"
    ∧ ∀ ev, (ccid, ev) ∉
        webinarMessage ((joinWebinar ((joinWebinar st A "42").1) B "42").1)
          A "42" "hi" := by
  have hmem : membersOf ((joinWebinar ((joinWebinar st A "42").1) B "42").1)
      ("webinar_" ++ "42")
      = insertMem B.cid (insertMem A.cid (membersOf st ("webinar_" ++ "42"))) := by
    simp [joinWebinar, membersOf_joinRoom_self]
  constructor
  · unfold webinarMessage ioToRoom
    exact List.mem_map.mpr
      ⟨B.cid, by rw [hmem]; exact insertMem_self_mem _ _, rfl⟩
  · intro ev hev
    unfold webinarMessage ioToRoom at hev
    obtain ⟨a, ha, heq⟩ := List.mem_map.mp hev
    have hac : a = ccid := ((Prod.mk.injEq _ _ _ _).mp heq).1
    subst hac
    rw [hmem] at ha
    rcases (mem_insertMem _ _ _).mp ha with h1 | h2
    · exact hcb h1
    · rcases (mem_insertMem _ _ _).mp h2 with h3 | h4
      · exact hca h3
      · exact hC h4

/-- Witness for C5: two fresh sockets join webinar 42, socket 2 stays
outside; the message from socket 0 reaches socket 1 and not socket 2. -/
theorem c5_witness :
    (1, ServerEvent.newWebinarMessage "42" "hi" "u1" "alice")
      ∈ webinarMessage
          ((joinWebinar ((joinWebinar emptyState sockA "42").1) sockB "42").1)
          sockA "42" "hi"
    ∧ ∀ ev, (2, ev) ∉
        webinarMessage
          ((joinWebinar ((joinWebinar emptyState sockA "42").1) sockB "42").1)
          sockA "42" "hi" :=
  c5_webinar_message_reaches_members_only emptyState sockA sockB 2
    (by simp [membersOf, emptyState, lookupA]) (by decide) (by decide)

/-- C8: the goal.updated event of update_goal, published with scope
User(u) via io.to(user_<u>), is delivered to every connection currently
in room user_<u> and to no connection outside that room. -/
theorem c8_user_scope_delivers_to_room_members (st : ServerState)
    (sock : Conn) (category : String) (target : ℚ) (timeframe : String)
    (cid : Nat) :
    (cid ∈ membersOf st ("user_" ++ sock.user.id) →
      (cid, ServerEvent.goalUpdated sock.user.id category target timeframe)
        ∈ updateGoal st sock category target timeframe)
    ∧ (cid ∉ membersOf st ("user_" ++ sock.user.id) →
      ∀ ev, (cid, ev) ∉ updateGoal st sock category target timeframe) := by
  constructor
  · intro h
    unfold updateGoal ioToRoom
    exact List.mem_map.mpr ⟨cid, h, rfl⟩
  · intro h ev hev
    unfold updateGoal ioToRoom at hev
    obtain ⟨a, ha, heq⟩ := List.mem_map.mp hev
    have hac : a = cid := ((Prod.mk.injEq _ _ _ _).mp heq).1
    exact h (hac ▸ ha)

/-- Witness for C8: in the one-connection state, socket 0 (in room
user_u1) receives goal.updated and socket 5 (in no room) receives
nothing. -/
theorem c8_witness :
    (0, ServerEvent.goalUpdated "u1" "energy" 5 "1 month")
      ∈ updateGoal st1 sockA "energy" 5 "1 month"
    ∧ ∀ ev, (5, ev) ∉ updateGoal st1 sockA "energy" 5 "1 month" :=
  ⟨(c8_user_scope_delivers_to_room_members st1 sockA "energy" 5 "1 month" 0).1
      (by simp [membersOf, st1, onConnection, joinRoom, emptyState, sockA,
        userAlice, updateA, lookupA, insertMem]),
   (c8_user_scope_delivers_to_room_members st1 sockA "energy" 5 "1 month" 5).2
      (by simp [membersOf, st1, onConnection, joinRoom, emptyState, sockA,
        userAlice, updateA, lookupA, insertMem])⟩

/-- C9: joining the same webinar room twice in a row produces exactly
the same server state -- both the room-to-members map of the adapter and
its socket-to-rooms map -- as joining once; the second join is a no-op and
not an error (the listener is total). -/
theorem c9_join_twice_is_join_once (st : ServerState) (sock : Conn)
    (w : String) :
    (joinWebinar ((joinWebinar st sock w).1) sock w).1
      = (joinWebinar st sock w).1 := by
  simp [joinWebinar, joinRoom_idem]

/-- C6: whenever the websocket credential is missing, malformed or
expired (verify fails), or does not resolve to a users-table row, the
auth middleware refuses the connection with the authentication error
and never yields a bound identity. -/
theorem c6_auth_failure_is_refused (verify : String → Option String)
    (lookupUser : String → Option UserRec) (token : Option String)
    (h : token = none
      ∨ ∃ t, token = some t ∧ (verify t = none
        ∨ ∃ uid, verify t = some uid ∧ lookupUser uid = none)) :
    authMiddleware verify lookupUser token
      = Except.error "Authentication error"
    ∧ ∀ u, authMiddleware verify lookupUser token ≠ Except.ok u := by
  have herr : authMiddleware verify lookupUser token
      = Except.error "Authentication error" := by
    rcases h with rfl | ⟨t, rfl, hv | ⟨uid, hv, hl⟩⟩
    · rfl
    · simp [authMiddleware, hv]
    · simp [authMiddleware, hv, hl]
  exact ⟨herr, fun u hu => by simp [herr] at hu⟩

/-- Witness for C6 with a missing credential. -/
theorem c6_witness :
    authMiddleware (fun _ => none) (fun _ => none) none
      = Except.error "Authentication error"
    ∧ ∀ u, authMiddleware (fun _ => none) (fun _ => none) none
        ≠ Except.ok u :=
  c6_auth_failure_is_refused (fun _ => none) (fun _ => none) none (Or.inl rfl)

theorem roomsOf_joinRoom_self (st : ServerState) (cid : Nat) (room : String) :
    roomsOf (joinRoom st cid room) cid = insertMem room (roomsOf st cid) := by
  simp [roomsOf, joinRoom, lookupA_updateA_self]

/-- C7: the connection handler records the authenticated socket with
its resolved identity and joins it to its private room user_<id> on
both sides of the adapter; and since the event listeners of a socket are
registered only inside its own connection callback, an inbound event
from a socket that has not connected is not processed at all. -/
theorem c7_register_binds_identity_and_joins_private_room
    (st : ServerState) (sock : Conn) :
    sock ∈ (onConnection st sock).conns
    ∧ sock.cid ∈ membersOf (onConnection st sock) ("user_" ++ sock.user.id)
    ∧ ("user_" ++ sock.user.id) ∈ roomsOf (onConnection st sock) sock.cid
    ∧ ∀ cid ev, (∀ c ∈ st.conns, c.cid ≠ cid) →
        step st (.inbound cid ev) = (st, []) := by
  refine ⟨?_, ?_, ?_, ?_⟩
  · simp [onConnection, joinRoom]
  · rw [onConnection, membersOf_joinRoom_self]
    exact insertMem_self_mem _ _
  · rw [onConnection, roomsOf_joinRoom_self]
    exact insertMem_self_mem _ _
  · intro cid ev h
    have hfind : st.conns.find? (fun c => c.cid == cid) = none :=
      List.find?_eq_none.mpr (fun c hc => by simp [h c hc])
    simp [step, hfind]

/-- Witness for C7: a fresh socket connecting to the empty state, and
an inbound event from the never-connected socket 7 being ignored. -/
theorem c7_witness :
    sockA ∈ (onConnection emptyState sockA).conns
    ∧ sockA.cid ∈ membersOf (onConnection emptyState sockA) ("user_" ++ "u1")
    ∧ ("user_" ++ "u1") ∈ roomsOf (onConnection emptyState sockA) sockA.cid
    ∧ step emptyState (.inbound 7 (.joinWebinarEv "42")) = (emptyState, []) :=
  ⟨(c7_register_binds_identity_and_joins_private_room emptyState sockA).1,
   (c7_register_binds_identity_and_joins_private_room emptyState sockA).2.1,
   (c7_register_binds_identity_and_joins_private_room emptyState sockA).2.2.1,
   (c7_register_binds_identity_and_joins_private_room emptyState sockA).2.2.2
     7 (.joinWebinarEv "42") (by simp [emptyState])⟩

/-- C10 counterexample: a report with the empty-string category is
accepted by the handler (no validation), and since the empty string is
falsy in JavaScript, the delivered refresh carries the whole static
recommendation list -- not the entries whose category equals the logged
category (there are none). -/
theorem c10_counterexample :
    (generatePersonalizedRecommendations "u1" "").recommendations ≠
      mockRecommendations.filter (fun r => r.category == "")
    ∧ (0, ServerEvent.recommendationUpdated ⟨"u1", mockRecommendations⟩)
      ∈ logActivity st1 sockA "" 1 "x" "d" := by
  constructor
  · simp [generatePersonalizedRecommendations, mockRecommendations,
      List.filter]
  · refine List.mem_append.mpr (Or.inr ?_)
    simp [socketEmit, generatePersonalizedRecommendations, sockA, userAlice]

/-- C10 amended: for every successful ingest with a non-empty category
c, the refresh delivered to the originating connection contains exactly
the entries of the static recommendation list whose category equals c
-- in particular the list is empty for the category diet -- while for
the empty (falsy in JavaScript) category the whole static list is
returned instead. -/
theorem c10_recommendations_filtered_by_category (user_id category : String)
    (st : ServerState) (sock : Conn) (quantity : ℚ)
    (unit description : String) :
    (category ≠ "" →
      (generatePersonalizedRecommendations user_id category).recommendations
        = mockRecommendations.filter (fun r => r.category == category))
    ∧ (generatePersonalizedRecommendations user_id "diet").recommendations = []
    ∧ (generatePersonalizedRecommendations user_id "").recommendations
        = mockRecommendations
    ∧ (sock.cid, ServerEvent.recommendationUpdated
          (generatePersonalizedRecommendations sock.user.id category))
        ∈ logActivity st sock category quantity unit description := by
  refine ⟨?_, ?_, ?_, ?_⟩
  · intro h
    simp [generatePersonalizedRecommendations, h]
  · simp [generatePersonalizedRecommendations, mockRecommendations,
      List.filter]
  · simp [generatePersonalizedRecommendations]
  · exact List.mem_append.mpr (Or.inr (by simp [socketEmit]))

/-- Witness for the amended C10 at the category diet, whose filtered
list is empty. -/
theorem c10_witness :
    (generatePersonalizedRecommendations "u1" "diet").recommendations
      = mockRecommendations.filter (fun r => r.category == "diet")
    ∧ (generatePersonalizedRecommendations "u1" "diet").recommendations = []
    ∧ (generatePersonalizedRecommendations "u1" "").recommendations
        = mockRecommendations
    ∧ (0, ServerEvent.recommendationUpdated
          (generatePersonalizedRecommendations "u1" "diet"))
        ∈ logActivity st1 sockA "diet" 3 "beef_kg" "meal" :=
  ⟨(c10_recommendations_filtered_by_category "u1" "diet" st1 sockA 3
      "beef_kg" "meal").1 (by decide),
   (c10_recommendations_filtered_by_category "u1" "diet" st1 sockA 3
      "beef_kg" "meal").2.1,
   (c10_recommendations_filtered_by_category "u1" "diet" st1 sockA 3
      "beef_kg" "meal").2.2.1,
   (c10_recommendations_filtered_by_category "u1" "diet" st1 sockA 3
      "beef_kg" "meal").2.2.2⟩

end Eco
